import Mathlib

/-!
Verification development for the obsvty OTLP ingestion endpoint.

Shallow embedding of the core ingestion pipeline:
  * domain value objects (`TraceId`, `SpanId`, `SpanStatus`, `SpanEvent`,
    `TraceSpan`) from `src/obsvty/domain/observability.py`;
  * the domain `ObservabilityBuffer` dataclass (same file);
  * the four application buffer variants from
    `src/obsvty/application/buffer_management.py`;
  * the OTLP gRPC adapter (`Export`, `_create_trace_span_from_otlp`,
    `_extract_attribute_value`, `_process_buffer_contents`) from
    `src/obsvty/adapters/messaging/otlp_grpc.py`;
  * the parsing-service value extractor
    (`_extract_value_from_otlp_value`, `_parse_attributes`,
    `validate_attributes_format`) from
    `src/obsvty/application/services/otlp_parsing_service.py`.

Python runtime values are modelled by the mutual inductive family
`PyObj` / `PyList` / `PyDict` (dicts restricted to string keys, which is
the only shape this code ever builds or reads).  IEEE-754 doubles are
carried opaquely as bit patterns (`DoubleLit`); no code under scrutiny
computes with them.  Exceptions are modelled with `Except String`.
-/

namespace Obsvty

/-- An IEEE-754 double carried opaquely as its 64-bit pattern; the code
never computes with doubles, it only moves them around. -/
structure DoubleLit where
  bits : Nat
deriving DecidableEq, Repr

mutual
/-- A Python runtime value as used by this code base: `None`, scalars,
lists and string-keyed dicts. -/
inductive PyObj where
  | none : PyObj
  | str (s : String) : PyObj
  | bool (b : Bool) : PyObj
  | int (n : Int) : PyObj
  | double (d : DoubleLit) : PyObj
  | bytes (bs : List Nat) : PyObj
  | list (xs : PyList) : PyObj
  | dict (kvs : PyDict) : PyObj
deriving DecidableEq

/-- A Python list of `PyObj`. -/
inductive PyList where
  | nil : PyList
  | cons (hd : PyObj) (tl : PyList) : PyList
deriving DecidableEq

/-- A Python string-keyed dict of `PyObj` (insertion ordered, unique keys
when built through `PyDict.insert`). -/
inductive PyDict where
  | nil : PyDict
  | cons (k : String) (v : PyObj) (tl : PyDict) : PyDict
deriving DecidableEq
end

/-- First value stored under key `k`, if any (Python `d[k]` / `k in d`). -/
def PyDict.lookup : PyDict → String → Option PyObj
  | .nil, _ => Option.none
  | .cons k' v tl, k => if k' = k then Option.some v else tl.lookup k

/-- Python dict assignment `d[k] = v`: replaces in place if the key is
present, otherwise appends (insertion order preserved). -/
def PyDict.insert : PyDict → String → PyObj → PyDict
  | .nil, k, v => .cons k v .nil
  | .cons k' v' tl, k, v =>
      if k' = k then .cons k' v tl else .cons k' v' (tl.insert k v)

/-! ## Domain value objects (`src/obsvty/domain/observability.py`) -/

/-- A character matched by the regex class `[0-9a-fA-F]`. -/
def isHexCharPy (c : Char) : Bool :=
  (('0' ≤ c && c ≤ '9') || ('a' ≤ c && c ≤ 'f') || ('A' ≤ c && c ≤ 'F'))

/-- Embedding of Python `re.match(r"^[0-9a-fA-F]\x7bn\x7d$", s)` being
truthy.  `re.match` anchors at the start; the `n`-times hex class consumes
exactly `n` characters; Python `$` then matches at the end of the string
*or just before a newline at the end of the string*, so a match also
succeeds when exactly one trailing `'\n'` remains. -/
def reMatchHexN (n : Nat) (s : String) : Bool :=
  let cs := s.data
  decide ((cs.take n).length = n) && (cs.take n).all isHexCharPy &&
    (decide (cs.drop n = []) || decide (cs.drop n = ['\n']))

/-- Value object `TraceId` (frozen dataclass). -/
structure TraceId where
  value : String
deriving DecidableEq, Repr

/-- `TraceId.__post_init__`: raises unless the value is a non-empty string
matching `re.match(r"^[0-9a-fA-F]\x7b32\x7d$", value)`. -/
def TraceId.mk? (value : String) : Option TraceId :=
  if value.length = 0 then Option.none
  else if reMatchHexN 32 value then Option.some ⟨value⟩
  else Option.none

/-- Value object `SpanId` (frozen dataclass). -/
structure SpanId where
  value : String
deriving DecidableEq, Repr

/-- `SpanId.__post_init__`: raises unless the value is a non-empty string
matching `re.match(r"^[0-9a-fA-F]\x7b16\x7d$", value)`. -/
def SpanId.mk? (value : String) : Option SpanId :=
  if value.length = 0 then Option.none
  else if reMatchHexN 16 value then Option.some ⟨value⟩
  else Option.none

/-- A `datetime` as produced by `_nanos_to_datetime`: epoch seconds plus a
microsecond field (timezone handling is irrelevant to every claim). -/
structure PyDatetime where
  seconds : Nat
  microsecond : Nat
deriving DecidableEq, Repr

/-- Value object `SpanEvent` (frozen dataclass). -/
structure SpanEvent where
  name : String
  timestamp : PyDatetime
  attributes : PyDict
deriving DecidableEq

/-- `SpanEvent.__post_init__`: raises unless `name` is a non-empty string. -/
def SpanEvent.mk? (name : String) (timestamp : PyDatetime)
    (attributes : PyDict) : Option SpanEvent :=
  if name.length = 0 then Option.none
  else Option.some ⟨name, timestamp, attributes⟩

/-- Value object `SpanStatus` (frozen dataclass). -/
structure SpanStatus where
  code : Int
  message : Option String
deriving DecidableEq

/-- `SpanStatus.__post_init__`: raises unless `code ∈ \x7b0, 1, 2\x7d`. -/
def SpanStatus.mk? (code : Int) (message : Option String) :
    Option SpanStatus :=
  if code = 0 ∨ code = 1 ∨ code = 2 then Option.some ⟨code, message⟩
  else Option.none

/-- Entity `TraceSpan` (mutable dataclass). -/
structure TraceSpan where
  trace_id : TraceId
  span_id : SpanId
  parent_span_id : Option SpanId
  name : String
  start_time_unix_nano : Int
  end_time_unix_nano : Int
  attributes : PyDict
  events : List SpanEvent
  status : SpanStatus
  kind : Int
deriving DecidableEq

/-- `TraceSpan.__post_init__`: raises unless the name is non-empty, the
start time is non-negative, `end ≥ start` and `kind ∈ range(5)` (the
`isinstance` checks on `attributes`/`events` always hold in this typed
embedding). -/
def TraceSpan.mk? (trace_id : TraceId) (span_id : SpanId)
    (parent_span_id : Option SpanId) (name : String)
    (start_time_unix_nano end_time_unix_nano : Int)
    (attributes : PyDict) (events : List SpanEvent) (status : SpanStatus)
    (kind : Int) : Option TraceSpan :=
  if name.length = 0 then Option.none
  else if start_time_unix_nano < 0 then Option.none
  else if end_time_unix_nano < start_time_unix_nano then Option.none
  else if ¬ (0 ≤ kind ∧ kind < 5) then Option.none
  else Option.some ⟨trace_id, span_id, parent_span_id, name,
    start_time_unix_nano, end_time_unix_nano, attributes, events, status,
    kind⟩

/-! ## Domain `ObservabilityBuffer` dataclass
(`src/obsvty/domain/observability.py`, lines 104-142) -/

namespace Domain

/-- Dataclass `ObservabilityBuffer(max_size, current_size=0, buffer=None)`.
State is mutated in place in Python; here every operation returns the new
state. -/
structure ObservabilityBuffer where
  max_size : Int
  current_size : Int
  buffer : List TraceSpan
deriving DecidableEq

/-- Construction: `__post_init__` replaces a `None` buffer with `[]`, then
raises unless `max_size > 0`, `current_size ≥ 0` and
`current_size == len(buffer)`. -/
def ObservabilityBuffer.mk? (max_size current_size : Int)
    (buffer : Option (List TraceSpan)) : Option ObservabilityBuffer :=
  let buf := buffer.getD []
  if max_size ≤ 0 then Option.none
  else if current_size < 0 then Option.none
  else if current_size ≠ (buf.length : Int) then Option.none
  else Option.some ⟨max_size, current_size, buf⟩

/-- `add_span`: returns `False` without mutation when
`current_size >= max_size`, otherwise appends and bumps `current_size`. -/
def ObservabilityBuffer.add_span (b : ObservabilityBuffer)
    (span : TraceSpan) : Bool × ObservabilityBuffer :=
  if b.current_size ≥ b.max_size then (false, b)
  else (true, ⟨b.max_size, b.current_size + 1, b.buffer ++ [span]⟩)

/-- `is_full`. -/
def ObservabilityBuffer.is_full (b : ObservabilityBuffer) : Bool :=
  b.current_size ≥ b.max_size

/-- `is_empty`. -/
def ObservabilityBuffer.is_empty (b : ObservabilityBuffer) : Bool :=
  b.current_size = 0

/-- `clear`: resets the buffer list and `current_size`. -/
def ObservabilityBuffer.clear (b : ObservabilityBuffer) :
    ObservabilityBuffer :=
  ⟨b.max_size, 0, []⟩

end Domain

/-! ## Application buffer variants
(`src/obsvty/application/buffer_management.py`).  All four classes guard a
plain `deque` with one lock; locking disappears in this sequential
embedding.  A `deque` with `maxlen` silently drops its leftmost element
when an `append` would exceed `maxlen`. -/

namespace BufferManagement

/-- `ObservabilityBuffer`: FIFO-discard (evict-oldest) variant backed by
`deque(maxlen=max_size)`. -/
structure ObservabilityBuffer where
  max_size : Int
  buffer : List TraceSpan
deriving DecidableEq

/-- `__init__`: raises unless `max_size > 0`; starts empty. -/
def ObservabilityBuffer.mk? (max_size : Int) :
    Option ObservabilityBuffer :=
  if max_size ≤ 0 then Option.none else Option.some ⟨max_size, []⟩

/-- `add_span`: `deque.append` with `maxlen` drops the oldest element when
the deque is at capacity; always returns `True`. -/
def ObservabilityBuffer.add_span (b : ObservabilityBuffer)
    (trace_span : TraceSpan) : Bool × ObservabilityBuffer :=
  let buf :=
    if (b.buffer.length : Int) ≥ b.max_size then b.buffer.drop 1
    else b.buffer
  (true, ⟨b.max_size, buf ++ [trace_span]⟩)

/-- `get_spans`: read-only prefix of up to `count` spans (a negative
Python `count` makes the copy loop run zero times). -/
def ObservabilityBuffer.get_spans (b : ObservabilityBuffer)
    (count : Int) : List TraceSpan :=
  b.buffer.take (min count (b.buffer.length : Int)).toNat

/-- `size`. -/
def ObservabilityBuffer.size (b : ObservabilityBuffer) : Nat :=
  b.buffer.length

/-- `is_full`. -/
def ObservabilityBuffer.is_full (b : ObservabilityBuffer) : Bool :=
  (b.buffer.length : Int) ≥ b.max_size

/-- `is_empty`. -/
def ObservabilityBuffer.is_empty (b : ObservabilityBuffer) : Bool :=
  b.buffer.length = 0

/-- `clear`. -/
def ObservabilityBuffer.clear (b : ObservabilityBuffer) :
    ObservabilityBuffer :=
  ⟨b.max_size, []⟩

/-- `ObservabilityBufferWithConsume`: same FIFO-discard `add_span`, but
`get_spans` pops from the front. -/
structure ObservabilityBufferWithConsume where
  max_size : Int
  buffer : List TraceSpan
deriving DecidableEq

/-- `__init__`: raises unless `max_size > 0`; starts empty. -/
def ObservabilityBufferWithConsume.mk? (max_size : Int) :
    Option ObservabilityBufferWithConsume :=
  if max_size ≤ 0 then Option.none else Option.some ⟨max_size, []⟩

/-- `add_span`: `deque.append` with `maxlen`; always returns `True`. -/
def ObservabilityBufferWithConsume.add_span
    (b : ObservabilityBufferWithConsume) (trace_span : TraceSpan) :
    Bool × ObservabilityBufferWithConsume :=
  let buf :=
    if (b.buffer.length : Int) ≥ b.max_size then b.buffer.drop 1
    else b.buffer
  (true, ⟨b.max_size, buf ++ [trace_span]⟩)

/-- `get_spans`: `popleft` executed `min(count, len)` times; returns the
removed front segment and the shrunken buffer. -/
def ObservabilityBufferWithConsume.get_spans
    (b : ObservabilityBufferWithConsume) (count : Int) :
    List TraceSpan × ObservabilityBufferWithConsume :=
  let n := (min count (b.buffer.length : Int)).toNat
  (b.buffer.take n, ⟨b.max_size, b.buffer.drop n⟩)

/-- `size`. -/
def ObservabilityBufferWithConsume.size
    (b : ObservabilityBufferWithConsume) : Nat :=
  b.buffer.length

/-- `is_full`. -/
def ObservabilityBufferWithConsume.is_full
    (b : ObservabilityBufferWithConsume) : Bool :=
  (b.buffer.length : Int) ≥ b.max_size

/-- `is_empty`. -/
def ObservabilityBufferWithConsume.is_empty
    (b : ObservabilityBufferWithConsume) : Bool :=
  b.buffer.length = 0

/-- `clear`. -/
def ObservabilityBufferWithConsume.clear
    (b : ObservabilityBufferWithConsume) : ObservabilityBufferWithConsume :=
  ⟨b.max_size, []⟩

/-- `TraceBufferPortReadOnly`: textually identical behaviour to
`ObservabilityBuffer` (FIFO-discard add, read-only get). -/
structure TraceBufferPortReadOnly where
  max_size : Int
  buffer : List TraceSpan
deriving DecidableEq

/-- `__init__`: raises unless `max_size > 0`; starts empty. -/
def TraceBufferPortReadOnly.mk? (max_size : Int) :
    Option TraceBufferPortReadOnly :=
  if max_size ≤ 0 then Option.none else Option.some ⟨max_size, []⟩

/-- `add_span`: `deque.append` with `maxlen`; always returns `True`. -/
def TraceBufferPortReadOnly.add_span (b : TraceBufferPortReadOnly)
    (trace_span : TraceSpan) : Bool × TraceBufferPortReadOnly :=
  let buf :=
    if (b.buffer.length : Int) ≥ b.max_size then b.buffer.drop 1
    else b.buffer
  (true, ⟨b.max_size, buf ++ [trace_span]⟩)

/-- `get_spans`: read-only prefix of up to `count` spans. -/
def TraceBufferPortReadOnly.get_spans (b : TraceBufferPortReadOnly)
    (count : Int) : List TraceSpan :=
  b.buffer.take (min count (b.buffer.length : Int)).toNat

/-- `size`. -/
def TraceBufferPortReadOnly.size (b : TraceBufferPortReadOnly) : Nat :=
  b.buffer.length

/-- `is_full`. -/
def TraceBufferPortReadOnly.is_full (b : TraceBufferPortReadOnly) : Bool :=
  (b.buffer.length : Int) ≥ b.max_size

/-- `is_empty`. -/
def TraceBufferPortReadOnly.is_empty (b : TraceBufferPortReadOnly) : Bool :=
  b.buffer.length = 0

/-- `clear`. -/
def TraceBufferPortReadOnly.clear (b : TraceBufferPortReadOnly) :
    TraceBufferPortReadOnly :=
  ⟨b.max_size, []⟩

/-- `RejectWhenFullBuffer`: plain unbounded `deque` plus an explicit
capacity check in `add_span`. -/
structure RejectWhenFullBuffer where
  max_size : Int
  buffer : List TraceSpan
deriving DecidableEq

/-- `__init__`: raises unless `max_size > 0`; starts empty. -/
def RejectWhenFullBuffer.mk? (max_size : Int) :
    Option RejectWhenFullBuffer :=
  if max_size ≤ 0 then Option.none else Option.some ⟨max_size, []⟩

/-- `add_span`: rejects (returns `False`, no mutation) when
`len(buffer) >= max_size`, otherwise appends and returns `True`. -/
def RejectWhenFullBuffer.add_span (b : RejectWhenFullBuffer)
    (trace_span : TraceSpan) : Bool × RejectWhenFullBuffer :=
  if (b.buffer.length : Int) ≥ b.max_size then (false, b)
  else (true, ⟨b.max_size, b.buffer ++ [trace_span]⟩)

/-- `get_spans`: read-only prefix of up to `count` spans. -/
def RejectWhenFullBuffer.get_spans (b : RejectWhenFullBuffer)
    (count : Int) : List TraceSpan :=
  b.buffer.take (min count (b.buffer.length : Int)).toNat

/-- `size`. -/
def RejectWhenFullBuffer.size (b : RejectWhenFullBuffer) : Nat :=
  b.buffer.length

/-- `is_full`. -/
def RejectWhenFullBuffer.is_full (b : RejectWhenFullBuffer) : Bool :=
  (b.buffer.length : Int) ≥ b.max_size

/-- `is_empty`. -/
def RejectWhenFullBuffer.is_empty (b : RejectWhenFullBuffer) : Bool :=
  b.buffer.length = 0

/-- `clear`. -/
def RejectWhenFullBuffer.clear (b : RejectWhenFullBuffer) :
    RejectWhenFullBuffer :=
  ⟨b.max_size, []⟩

end BufferManagement

/-! ## OTLP wire model (protobuf messages as the adapter reads them) -/

mutual
/-- Protobuf `AnyValue` as seen through `HasField`: each member of the
oneof is an optional field.  On a real wire at most one is set; the model
also represents the invalid multi-set case the spec discusses. -/
inductive AnyValue where
  | mk (string_value : Option String) (bool_value : Option Bool)
       (int_value : Option Int) (double_value : Option DoubleLit)
       (bytes_value : Option (List Nat)) (array_value : Option ArrayValue)
       (kvlist_value : Option KeyValueList) : AnyValue

/-- Protobuf `ArrayValue.values`. -/
inductive ArrayValue where
  | nil : ArrayValue
  | cons (v : AnyValue) (tl : ArrayValue) : ArrayValue

/-- Protobuf `KeyValueList.values` (each entry a `KeyValue`). -/
inductive KeyValueList where
  | nil : KeyValueList
  | cons (key : String) (value : AnyValue) (tl : KeyValueList) : KeyValueList
end

/-- Protobuf `KeyValue` (span/event attribute entry). -/
structure KeyValue where
  key : String
  value : AnyValue

/-- Protobuf `Status` submessage (proto3 access never fails: defaults are
`code = 0`, `message = ""`). -/
structure OtlpStatus where
  code : Int
  message : String
deriving DecidableEq

/-- Protobuf `Span.Event`. -/
structure OtlpEvent where
  time_unix_nano : Nat
  name : String
  attributes : List KeyValue

/-- Protobuf `Span` with the fields the adapter reads.  IDs are raw byte
strings; timestamps are `fixed64`, hence `Nat`. -/
structure OtlpSpan where
  trace_id : List Nat
  span_id : List Nat
  parent_span_id : List Nat
  name : String
  kind : Int
  start_time_unix_nano : Nat
  end_time_unix_nano : Nat
  attributes : List KeyValue
  events : List OtlpEvent
  status : OtlpStatus

/-- Protobuf `ScopeSpans`. -/
structure ScopeSpans where
  spans : List OtlpSpan

/-- Protobuf `ResourceSpans`. -/
structure ResourceSpans where
  scope_spans : List ScopeSpans

/-- Protobuf `ExportTraceServiceRequest`. -/
structure ExportTraceServiceRequest where
  resource_spans : List ResourceSpans

/-- Protobuf `ExportTracePartialSuccess`. -/
structure ExportTracePartialSuccess where
  rejected_spans : Int
  error_message : String
deriving DecidableEq

/-- Protobuf `ExportTraceServiceResponse`; `ExportTraceServiceResponse()`
leaves `partial_success` unset. -/
structure ExportTraceServiceResponse where
  partial_success : Option ExportTracePartialSuccess
deriving DecidableEq

/-- The structurally valid empty success envelope the adapter builds in
both the normal and the exception path. -/
def emptySuccessResponse : ExportTraceServiceResponse := ⟨Option.none⟩

/-! ## OTLP gRPC adapter (`src/obsvty/adapters/messaging/otlp_grpc.py`) -/

namespace OTLPgRPCAdapter

/-- One lowercase hex digit (`0`-`9`, `a`-`f`). -/
def hexDigitChar (n : Nat) : Char :=
  if n < 10 then Char.ofNat (48 + n) else Char.ofNat (87 + n)

/-- Python `bytes.hex()`: two lowercase hex digits per byte. -/
def bytesToHex (bs : List Nat) : String :=
  String.mk ((bs.map
    (fun b => [hexDigitChar ((b % 256) / 16), hexDigitChar (b % 16)])).flatten)

/-- `_nanos_to_datetime`: seconds by floor division, microseconds from the
remainder. -/
def nanosToDatetime (nanos : Nat) : PyDatetime :=
  ⟨nanos / 1000000000, (nanos % 1000000000) / 1000⟩

/-- `_extract_attribute_value`: the `HasField` chain checks
`string_value`, `bool_value`, `int_value`, `double_value`, `bytes_value`
in that order; everything else — no field set, or only `array_value` /
`kvlist_value` set — falls into the final `else` and returns `None`. -/
def extractAttributeValue (any_value : AnyValue) : PyObj :=
  match any_value with
  | .mk sv bv iv dv byv _ _ =>
    match sv with
    | Option.some s => .str s
    | Option.none =>
      match bv with
      | Option.some b => .bool b
      | Option.none =>
        match iv with
        | Option.some n => .int n
        | Option.none =>
          match dv with
          | Option.some d => .double d
          | Option.none =>
            match byv with
            | Option.some bs => .bytes bs
            | Option.none => .none

/-- Attribute dict built by the `for attr in ...` loops:
`attributes[attr.key] = self._extract_attribute_value(attr.value)`. -/
def buildAttributes (attrs : List KeyValue) : PyDict :=
  attrs.foldl
    (fun acc attr => acc.insert attr.key (extractAttributeValue attr.value))
    PyDict.nil

/-- The event-conversion loop: each wire event becomes a `SpanEvent`; an
empty event name makes the `SpanEvent` constructor raise, which aborts
the whole conversion (the adapter has no per-event skip). -/
def buildEvents : List OtlpEvent → Except String (List SpanEvent)
  | [] => .ok []
  | event :: rest =>
    match SpanEvent.mk? event.name (nanosToDatetime event.time_unix_nano)
        (buildAttributes event.attributes) with
    | Option.none => .error "SpanEvent name must be a non-empty string"
    | Option.some span_event =>
      match buildEvents rest with
      | .error e => .error e
      | .ok tl => .ok (span_event :: tl)

/-- `_create_trace_span_from_otlp`: decodes ids, converts attributes,
events and status, and constructs the domain `TraceSpan`.  Any `ValueError`
raised by a value-object constructor propagates as `.error`. -/
def createTraceSpanFromOtlp (otlp_span : OtlpSpan) :
    Except String TraceSpan :=
  match TraceId.mk? (bytesToHex otlp_span.trace_id) with
  | Option.none => .error "TraceId value error"
  | Option.some trace_id =>
  match SpanId.mk? (bytesToHex otlp_span.span_id) with
  | Option.none => .error "SpanId value error"
  | Option.some span_id =>
  -- `if otlp_span.parent_span_id` — empty bytes are falsy
  match
    (if otlp_span.parent_span_id = [] then
      Except.ok Option.none
    else
      match SpanId.mk? (bytesToHex otlp_span.parent_span_id) with
      | Option.none =>
          (Except.error "SpanId value error" :
            Except String (Option SpanId))
      | Option.some p => Except.ok (Option.some p)) with
  | .error e => .error e
  | .ok parent_span_id =>
  match buildEvents otlp_span.events with
  | .error e => .error e
  | .ok events =>
  -- `message if message else None`: the empty string is falsy
  match SpanStatus.mk? otlp_span.status.code
      (if otlp_span.status.message = "" then Option.none
       else Option.some otlp_span.status.message) with
  | Option.none => .error "SpanStatus code error"
  | Option.some status =>
  match TraceSpan.mk? trace_id span_id parent_span_id otlp_span.name
      (otlp_span.start_time_unix_nano : Int)
      (otlp_span.end_time_unix_nano : Int)
      (buildAttributes otlp_span.attributes) events status
      otlp_span.kind with
  | Option.none => .error "TraceSpan value error"
  | Option.some trace_span => .ok trace_span

/-- The spans of a request in the depth-first order of the adapter's
triple loop `resource_spans / scope_spans / spans`. -/
def requestSpans (request : ExportTraceServiceRequest) : List OtlpSpan :=
  ((request.resource_spans.map ResourceSpans.scope_spans).flatten.map
    ScopeSpans.spans).flatten

/-- The wire span total the spec counts: the sum over every resource-span
group and scope-span group of its span-list length. -/
def totalWireSpans (request : ExportTraceServiceRequest) : Nat :=
  (request.resource_spans.map
    (fun rs => (rs.scope_spans.map (fun ss => ss.spans.length)).sum)).sum

/-- Intermediate state of the per-request walk.  `calls` records every
invocation of `ProcessTraceUseCase.run`; each recorded element stands for
the argument `request.SerializeToString()` (serialization is
deterministic, so the payload is represented by the request itself).
`exc` models a raised-and-not-yet-caught exception. -/
structure WalkState where
  buffer : Domain.ObservabilityBuffer
  calls : List ExportTraceServiceRequest
  drains : Nat
  exc : Option String

/-- One iteration of the innermost loop body of `Export` for one wire
span: convert, `add_span`, on rejection `_process_buffer_contents` (a
`clear`) and one retried `add_span` whose result is ignored, then one
storage-port call.  `storage_ok i` says whether the `i`-th storage call
(0-based) returns normally; a raised exception short-circuits the rest of
the walk. -/
def exportStep (request : ExportTraceServiceRequest)
    (storage_ok : Nat → Bool) (st : WalkState) (span : OtlpSpan) :
    WalkState :=
  match st.exc with
  | Option.some _ => st
  | Option.none =>
    match createTraceSpanFromOtlp span with
    | .error e => { st with exc := Option.some e }
    | .ok trace_span =>
      let (added, b1) := st.buffer.add_span trace_span
      let (b2, drains) :=
        if added then (b1, st.drains)
        else ((st.buffer.clear.add_span trace_span).2, st.drains + 1)
      let calls := st.calls ++ [request]
      if storage_ok st.calls.length then
        ⟨b2, calls, drains, Option.none⟩
      else
        ⟨b2, calls, drains, Option.some "storage port error"⟩

/-- Everything observable about one `Export` call. -/
structure ExportOutcome where
  response : ExportTraceServiceResponse
  status_code : Option Int
  buffer : Domain.ObservabilityBuffer
  storage_calls : List ExportTraceServiceRequest
  drains : Nat
  raised_internally : Bool

/-- `OTLPgRPCAdapter.Export`: walks the request, then builds
`ExportTraceServiceResponse()` — the `except Exception` handler does
exactly the same, and the adapter never calls `context.set_code`, so both
paths produce the same envelope and no transport status override. -/
def Export (request : ExportTraceServiceRequest)
    (buffer : Domain.ObservabilityBuffer) (storage_ok : Nat → Bool) :
    ExportOutcome :=
  let final := (requestSpans request).foldl (exportStep request storage_ok)
    ⟨buffer, [], 0, Option.none⟩
  match final.exc with
  | Option.some _ =>
      ⟨emptySuccessResponse, Option.none, final.buffer, final.calls,
        final.drains, true⟩
  | Option.none =>
      ⟨emptySuccessResponse, Option.none, final.buffer, final.calls,
        final.drains, false⟩

end OTLPgRPCAdapter


/-! ## Parsing-service value extractor
(`src/obsvty/application/services/otlp_parsing_service.py`).  These
functions work on already-deserialized Python data (string-keyed dicts in
the protobuf-JSON shape, e.g. `\x7b"stringValue": "v"\x7d`). -/

namespace OTLPParsingService

/-- sizeOf of a successful dict lookup is below the dict's. -/
theorem PyDict.lookup_sizeOf : (d : PyDict) → (k : String) → (v : PyObj) →
    d.lookup k = Option.some v → sizeOf v < sizeOf d
  | .nil, _, _, h => by simp [Obsvty.PyDict.lookup] at h
  | .cons k' v' tl, k, v, h => by
    simp only [Obsvty.PyDict.lookup] at h
    split at h
    · cases h; simp; omega
    · have := PyDict.lookup_sizeOf tl k v h
      simp; omega

/-- One element of the list form of attributes: must be a dict holding a
string under `"key"` and anything under `"value"`. -/
def attributeEntryOk (attr : PyObj) : Bool :=
  match attr with
  | .dict d =>
    (match d.lookup "key" with
     | Option.some (.str _) => true
     | _ => false) &&
    (d.lookup "value").isSome
  | _ => false

/-- The list scan of `validate_attributes_format`. -/
def attributeEntriesOk : PyList → Bool
  | .nil => true
  | .cons attr tl => attributeEntryOk attr && attributeEntriesOk tl

/-- `validate_attributes_format`: `None` and dicts pass (dict keys are
strings by construction of `PyDict`); a list passes when every element is
a well-formed key/value entry; anything else fails. -/
def validateAttributesFormat (attributes : PyObj) : Bool :=
  match attributes with
  | .none => true
  | .dict _ => true
  | .list xs => attributeEntriesOk xs
  | _ => false

mutual
/-- `_extract_value_from_otlp_value`: non-dicts are returned unchanged;
for dicts the key chain is `stringValue`, `intValue`, `boolValue`,
`doubleValue`, then `arrayValue` (recursing element-wise when the nested
`\x7b"values": [...]\x7d` shape is present, otherwise falling off the
function and returning `None`), then `kvlistValue` (recursing through
`_parse_attributes`), and finally the bare `else` returns the dict
itself.  A `"values"` entry that is not a list would make the Python
`for` loop iterate a non-list (or raise `TypeError`); that corner is
modelled as an exception and no claim touches it. -/
def extractValueFromOtlpValue (value_data : PyObj) :
    Except String PyObj :=
  match value_data with
  | .dict d =>
    match d.lookup "stringValue" with
    | Option.some v => .ok v
    | Option.none =>
    match d.lookup "intValue" with
    | Option.some v => .ok v
    | Option.none =>
    match d.lookup "boolValue" with
    | Option.some v => .ok v
    | Option.none =>
    match d.lookup "doubleValue" with
    | Option.some v => .ok v
    | Option.none =>
    match h1 : d.lookup "arrayValue" with
    | Option.some array_values =>
      (match h2 : array_values with
       | .dict avd =>
         (match h3 : avd.lookup "values" with
          | Option.some values =>
            (match h4 : values with
             | .list xs =>
               (match extractValueList xs with
                | .error e => .error e
                | .ok rs => .ok (.list rs))
             | _ => .error "TypeError: non-list values iteration")
          | Option.none => .ok .none)
       | _ => .ok .none)
    | Option.none =>
    match h5 : d.lookup "kvlistValue" with
    | Option.some kvlist_values =>
      (match h6 : kvlist_values with
       | .dict kvd =>
         (match h7 : kvd.lookup "values" with
          | Option.some values =>
            (match parseAttributes values with
             | .error e => .error e
             | .ok attrs => .ok (.dict attrs))
          | Option.none => .ok .none)
       | _ => .ok .none)
    | Option.none => .ok value_data
  | v => .ok v
termination_by sizeOf value_data
decreasing_by
  · have a1 := PyDict.lookup_sizeOf _ _ _ h1
    have a3 := PyDict.lookup_sizeOf _ _ _ h3
    subst h2; subst h4
    simp at a1 a3 ⊢; omega
  · have a5 := PyDict.lookup_sizeOf _ _ _ h5
    have a7 := PyDict.lookup_sizeOf _ _ _ h7
    subst h6
    simp at a5 a7 ⊢; omega

/-- The recursion of the `arrayValue` branch : the list comprehension
`[self._extract_value_from_otlp_value(v) for v in values]` (an exception
from any element propagates). -/
def extractValueList (xs : PyList) : Except String PyList :=
  match xs with
  | .nil => .ok .nil
  | .cons hd tl =>
    match extractValueFromOtlpValue hd with
    | .error e => .error e
    | .ok h' =>
      match extractValueList tl with
      | .error e => .error e
      | .ok t' => .ok (.cons h' t')
termination_by sizeOf xs
decreasing_by
  all_goals (simp; try omega)

/-- `_parse_attributes`: validates the shape (raising `ValueError` on
failure), returns dict inputs unchanged, folds list inputs entry by
entry, and returns the empty dict for anything else (e.g. `None`). -/
def parseAttributes (attributes_data : PyObj) : Except String PyDict :=
  if validateAttributesFormat attributes_data = false then
    .error "Invalid attributes format"
  else
    match h : attributes_data with
    | .dict d => .ok d
    | .list xs => parseAttributeList xs PyDict.nil
    | _ => .ok PyDict.nil
termination_by sizeOf attributes_data
decreasing_by
  · subst h; simp

/-- The `for attr in attributes_data` loop of `_parse_attributes`:
conforming entries contribute `attributes[key] = extracted value`; the
guard skips anything else. -/
def parseAttributeList (xs : PyList) (attributes : PyDict) :
    Except String PyDict :=
  match xs with
  | .nil => .ok attributes
  | .cons attr tl =>
    match attr with
    | .dict d =>
      (match d.lookup "key", h9 : d.lookup "value" with
       | Option.some (.str key), Option.some value_data =>
         (match extractValueFromOtlpValue value_data with
          | .error e => .error e
          | .ok actual_value =>
            parseAttributeList tl (attributes.insert key actual_value))
       | _, _ => parseAttributeList tl attributes)
    | _ => parseAttributeList tl attributes
termination_by sizeOf xs
decreasing_by
  all_goals first
  | (have a9 := PyDict.lookup_sizeOf _ _ _ h9
     subst h8
     simp at a9 ⊢; omega)
  | (have a9 := PyDict.lookup_sizeOf _ _ _ h9
     simp at a9 ⊢; omega)
  | (simp; omega)
  | simp
end

end OTLPParsingService


/-! ## Spec-side reference definitions (§4.1 of the spec, stated in the
spec's own words, for comparison against the two source extractors) -/

namespace Spec

/-- The spec's scalar selection rule: "returns exactly one native value
corresponding to whichever field is set, with this precedence when
multiple are (invalidly) set: string > bool > int > double > bytes"; "if
no field is set, returns a null/absent marker". -/
def scalarSelect (sv : Option String) (bv : Option Bool) (iv : Option Int)
    (dv : Option DoubleLit) (byv : Option (List Nat)) : PyObj :=
  match sv with
  | Option.some s => .str s
  | Option.none =>
  match bv with
  | Option.some b => .bool b
  | Option.none =>
  match iv with
  | Option.some n => .int n
  | Option.none =>
  match dv with
  | Option.some d => .double d
  | Option.none =>
  match byv with
  | Option.some bs => .bytes bs
  | Option.none => .none

mutual
/-- The spec's full recursive extractor over a wire `AnyValue`: scalar
precedence as in `scalarSelect`, "array values recurse element-wise into
a sequence; key-value-list values recurse into a string-keyed map using
the same extraction rule per entry". -/
def anyValueExtract (v : AnyValue) : PyObj :=
  match v with
  | .mk (Option.some s) _ _ _ _ _ _ => .str s
  | .mk Option.none (Option.some b) _ _ _ _ _ => .bool b
  | .mk Option.none Option.none (Option.some n) _ _ _ _ => .int n
  | .mk Option.none Option.none Option.none (Option.some d) _ _ _ => .double d
  | .mk Option.none Option.none Option.none Option.none (Option.some bs) _ _ => .bytes bs
  | .mk Option.none Option.none Option.none Option.none Option.none (Option.some arr) _ =>
      .list (arrayExtract arr)
  | .mk Option.none Option.none Option.none Option.none Option.none Option.none (Option.some kvs) =>
      .dict (kvlistExtract kvs)
  | .mk Option.none Option.none Option.none Option.none Option.none Option.none Option.none =>
      .none

/-- Element-wise recursion of the spec rule into an array value. -/
def arrayExtract (xs : ArrayValue) : PyList :=
  match xs with
  | .nil => .nil
  | .cons v tl => .cons (anyValueExtract v) (arrayExtract tl)

/-- Entry-wise recursion of the spec rule into a key-value list,
building a string-keyed map. -/
def kvlistExtract (kvs : KeyValueList) : PyDict :=
  match kvs with
  | .nil => .nil
  | .cons k v tl => PyDict.insert (kvlistExtract tl) k (anyValueExtract v) 
end

/-- The scalar key order the parsing service actually implements on
JSON-shaped dicts: `stringValue`, `intValue`, `boolValue`, `doubleValue`
(no bytes key), defaulting to the unchanged input dict. -/
def serviceScalarOrder (d : PyDict) : PyObj :=
  match d.lookup "stringValue" with
  | Option.some v => v
  | Option.none =>
  match d.lookup "intValue" with
  | Option.some v => v
  | Option.none =>
  match d.lookup "boolValue" with
  | Option.some v => v
  | Option.none =>
  match d.lookup "doubleValue" with
  | Option.some v => v
  | Option.none => .dict d

/-- The spec's scalar selection transplanted to the parsing service's
JSON-shaped dict input: `stringValue` > `boolValue` > `intValue` >
`doubleValue` > `bytesValue`, null marker when no field is set. -/
def serviceScalarSelect (d : PyDict) : PyObj :=
  match d.lookup "stringValue" with
  | Option.some v => v
  | Option.none =>
  match d.lookup "boolValue" with
  | Option.some v => v
  | Option.none =>
  match d.lookup "intValue" with
  | Option.some v => v
  | Option.none =>
  match d.lookup "doubleValue" with
  | Option.some v => v
  | Option.none =>
  match d.lookup "bytesValue" with
  | Option.some v => v
  | Option.none => .none

end Spec

/-! ## Theorems for the frozen claims -/

/-- C3 counterexample: the parsing-service extractor does not follow the
claimed precedence string > bool > int > double > bytes.  At a value with
both `intValue` and `boolValue` set it returns the int (its key chain
checks `intValue` before `boolValue`), while the claimed precedence
selects the bool. -/
theorem extractor_precedence_counterexample :
    OTLPParsingService.extractValueFromOtlpValue
        (.dict (.cons "intValue" (.int 7)
          (.cons "boolValue" (.bool true) .nil)))
      = .ok (.int 7) ∧
    Spec.serviceScalarSelect
        (.cons "intValue" (.int 7) (.cons "boolValue" (.bool true) .nil))
      = .bool true ∧
    (PyObj.int 7) ≠ (PyObj.bool true) := by
  refine ⟨?_, ?_, by simp⟩
  · rw [OTLPParsingService.extractValueFromOtlpValue]
    simp [PyDict.lookup]
  · simp [Spec.serviceScalarSelect, PyDict.lookup]

/-- C3 (amended): the adapter extractor `_extract_attribute_value`
selects exactly one set scalar field with precedence string > bool >
int > double > bytes and returns `None` when no scalar field is set;
the parsing-service extractor `_extract_value_from_otlp_value` instead
checks `stringValue`, then `intValue`, then `boolValue`, then
`doubleValue` (it has no bytes branch) and returns the input dict
unchanged when none of its recognized keys is present. -/
theorem extractor_scalar_precedence_amended :
    (∀ (sv : Option String) (bv : Option Bool) (iv : Option Int)
       (dv : Option DoubleLit) (byv : Option (List Nat))
       (av : Option ArrayValue) (kv : Option KeyValueList),
       OTLPgRPCAdapter.extractAttributeValue (.mk sv bv iv dv byv av kv)
         = Spec.scalarSelect sv bv iv dv byv) ∧
    (∀ d : PyDict,
       d.lookup "arrayValue" = Option.none →
       d.lookup "kvlistValue" = Option.none →
       OTLPParsingService.extractValueFromOtlpValue (.dict d)
         = .ok (Spec.serviceScalarOrder d)) := by
  constructor
  · intro sv bv iv dv byv av kv
    cases sv <;> cases bv <;> cases iv <;> cases dv <;> cases byv <;> rfl
  · intro d h1 h2
    rw [OTLPParsingService.extractValueFromOtlpValue]
    simp only [Spec.serviceScalarOrder]
    cases d.lookup "stringValue" <;>
      cases d.lookup "intValue" <;>
      cases d.lookup "boolValue" <;>
      cases d.lookup "doubleValue" <;>
      try rfl
    split
    · rfl
    · split
      · rfl
      · split
        · rfl
        · split
          · rfl
          · split
            · rename_i heq
              rw [h1] at heq
              cases heq
            · split
              · rename_i heq
                rw [h2] at heq
                cases heq
              · rfl

/-- Witness for C3 (amended): concrete instantiations discharging every
hypothesis. -/
theorem extractor_scalar_precedence_amended_witness :
    OTLPgRPCAdapter.extractAttributeValue
        (.mk Option.none (Option.some true) (Option.some 5) Option.none
          Option.none Option.none Option.none)
      = Spec.scalarSelect Option.none (Option.some true) (Option.some 5)
          Option.none Option.none ∧
    (PyDict.cons "intValue" (.int 5)
        (.cons "boolValue" (.bool true) .nil)).lookup "arrayValue"
      = Option.none ∧
    (PyDict.cons "intValue" (.int 5)
        (.cons "boolValue" (.bool true) .nil)).lookup "kvlistValue"
      = Option.none ∧
    OTLPParsingService.extractValueFromOtlpValue
        (.dict (.cons "intValue" (.int 5)
          (.cons "boolValue" (.bool true) .nil)))
      = .ok (Spec.serviceScalarOrder
          (.cons "intValue" (.int 5)
            (.cons "boolValue" (.bool true) .nil))) :=
  ⟨extractor_scalar_precedence_amended.1 Option.none (Option.some true)
      (Option.some 5) Option.none Option.none Option.none Option.none,
   rfl, rfl,
   extractor_scalar_precedence_amended.2
     (.cons "intValue" (.int 5) (.cons "boolValue" (.bool true) .nil))
     rfl rfl⟩

/-- C4 counterexample: at a wire value whose only set field is an array
holding one string element, the adapter extractor returns `None` instead
of the recursively extracted sequence the claim (and the spec rule)
prescribe. -/
theorem extractor_recursion_counterexample :
    OTLPgRPCAdapter.extractAttributeValue
        (.mk Option.none Option.none Option.none Option.none Option.none
          (Option.some (.cons
            (.mk (Option.some "x") Option.none Option.none Option.none
              Option.none Option.none Option.none) .nil))
          Option.none)
      = PyObj.none ∧
    Spec.anyValueExtract
        (.mk Option.none Option.none Option.none Option.none Option.none
          (Option.some (.cons
            (.mk (Option.some "x") Option.none Option.none Option.none
              Option.none Option.none Option.none) .nil))
          Option.none)
      = .list (.cons (.str "x") .nil) ∧
    PyObj.none ≠ PyObj.list (.cons (.str "x") .nil) := by
  refine ⟨rfl, rfl, by simp⟩

/-- C4 (amended): the recursive array/key-value-list extraction the claim
describes is implemented by the parsing-service extractor only: an
`arrayValue` of shape `\x7b"values": [...]\x7d` recurses element-wise
through the same extraction rule into a sequence, and a `kvlistValue` of
that shape recurses through `_parse_attributes`, which maps each
well-formed `\x7b"key": k, "value": v\x7d` entry to `k ↦ extract(v)` in a
string-keyed dict.  The adapter extractor does not recurse at all: it
returns `None` whenever no scalar field is set, including every array- or
kvlist-set value. -/
theorem extractor_recursion_amended :
    (∀ (av : Option ArrayValue) (kv : Option KeyValueList),
       OTLPgRPCAdapter.extractAttributeValue
         (.mk Option.none Option.none Option.none Option.none Option.none
           av kv) = PyObj.none) ∧
    (∀ xs : PyList,
       OTLPParsingService.extractValueFromOtlpValue
           (.dict (.cons "arrayValue"
             (.dict (.cons "values" (.list xs) .nil)) .nil))
         = (match OTLPParsingService.extractValueList xs with
            | .error e => .error e
            | .ok rs => .ok (.list rs))) ∧
    (∀ (hd : PyObj) (tl : PyList),
       OTLPParsingService.extractValueList (.cons hd tl)
         = (match OTLPParsingService.extractValueFromOtlpValue hd with
            | .error e => .error e
            | .ok h' =>
              match OTLPParsingService.extractValueList tl with
              | .error e => .error e
              | .ok t' => .ok (.cons h' t'))) ∧
    (∀ values : PyObj,
       OTLPParsingService.extractValueFromOtlpValue
           (.dict (.cons "kvlistValue"
             (.dict (.cons "values" values .nil)) .nil))
         = (match OTLPParsingService.parseAttributes values with
            | .error e => .error e
            | .ok attrs => .ok (.dict attrs))) ∧
    (∀ (k : String) (v : PyObj) (tl : PyList) (acc : PyDict),
       OTLPParsingService.parseAttributeList
           (.cons (.dict (.cons "key" (.str k) (.cons "value" v .nil)))
             tl) acc
         = (match OTLPParsingService.extractValueFromOtlpValue v with
            | .error e => .error e
            | .ok a =>
              OTLPParsingService.parseAttributeList tl
                (acc.insert k a))) := by
  refine ⟨?_, ?_, ?_, ?_, ?_⟩
  · intro av kv
    rfl
  · intro xs
    rw [OTLPParsingService.extractValueFromOtlpValue]
    simp [PyDict.lookup]
  · intro hd tl
    rw [OTLPParsingService.extractValueList]
  · intro values
    rw [OTLPParsingService.extractValueFromOtlpValue]
    simp [PyDict.lookup]
  · intro k v tl acc
    rw [OTLPParsingService.parseAttributeList]
    simp [PyDict.lookup]

/-- A concrete `TraceSpan` used as buffer payload in witnesses. -/
def sampleSpan : TraceSpan :=
  ⟨⟨"00000000000000000000000000000000"⟩, ⟨"0000000000000000"⟩, Option.none,
    "sample", 0, 0, PyDict.nil, [], ⟨0, Option.none⟩, 0⟩

/-- A second concrete `TraceSpan`, distinguishable from `sampleSpan`. -/
def sampleSpan2 : TraceSpan :=
  ⟨⟨"00000000000000000000000000000000"⟩, ⟨"0000000000000000"⟩, Option.none,
    "sample2", 0, 0, PyDict.nil, [], ⟨0, Option.none⟩, 0⟩

/-- C9: the claim says construction succeeds exactly for 32-hex-character
strings (16 for `SpanId`) and fails for every other string.  The
implementation regex `^[0-9a-fA-F]\x7b32\x7d$` under Python `re.match` also
accepts exactly 32 hex characters followed by one trailing newline,
because `$` matches just before a final `'\n'`; so a 33-character string
is accepted, contradicting the claim, the constructor's own error message
("must be a hex-encoded 32-character string") and the unit tests'
too-long-string expectations.  This theorem evaluates the embedded
constructors at the failing inputs. -/
theorem traceId_spanId_accept_trailing_newline :
    TraceId.mk? "00000000000000000000000000000000\n"
        = Option.some ⟨"00000000000000000000000000000000\n"⟩ ∧
    ("00000000000000000000000000000000\n").length = 33 ∧
    SpanId.mk? "0000000000000000\n"
        = Option.some ⟨"0000000000000000\n"⟩ ∧
    ("0000000000000000\n").length = 17 := by
  refine ⟨?_, by decide, ?_, by decide⟩ <;> decide

/-- C10: for the domain `ObservabilityBuffer` dataclass, construction
fails whenever `current_size` differs from `len(buffer)`; `add_span` and
`clear` preserve `current_size == len(buffer)`; and `add_span` increments
both by exactly one precisely when it returns `True`. -/
theorem domain_buffer_current_size_invariant :
    (∀ (m c : Int) (bo : Option (List TraceSpan)),
       c ≠ (((bo.getD []).length : Int)) →
       Domain.ObservabilityBuffer.mk? m c bo = Option.none) ∧
    (∀ (m c : Int) (bo : Option (List TraceSpan))
       (b : Domain.ObservabilityBuffer),
       Domain.ObservabilityBuffer.mk? m c bo = Option.some b →
       b.current_size = ((b.buffer.length : Int))) ∧
    (∀ (b : Domain.ObservabilityBuffer) (x : TraceSpan),
       b.current_size = ((b.buffer.length : Int)) →
       (b.add_span x).2.current_size
         = (((b.add_span x).2.buffer.length : Int))) ∧
    (∀ b : Domain.ObservabilityBuffer,
       b.clear.current_size = ((b.clear.buffer.length : Int))) ∧
    (∀ (b : Domain.ObservabilityBuffer) (x : TraceSpan),
       (b.add_span x).1 = true ↔
         ((b.add_span x).2.current_size = b.current_size + 1 ∧
          (b.add_span x).2.buffer.length = b.buffer.length + 1)) := by
  refine ⟨?_, ?_, ?_, ?_, ?_⟩
  · intro m c bo h
    simp only [Domain.ObservabilityBuffer.mk?]
    split_ifs <;> simp_all
  · intro m c bo b h
    simp only [Domain.ObservabilityBuffer.mk?] at h
    split_ifs at h with h1 h2 h3
    cases h
    simpa using h3
  · intro b x h
    simp only [Domain.ObservabilityBuffer.add_span]
    split_ifs with h1
    · exact h
    · simp [h]
  · intro b
    simp [Domain.ObservabilityBuffer.clear]
  · intro b x
    simp only [Domain.ObservabilityBuffer.add_span]
    split_ifs with h1
    · simp
      try omega
    · simp

/-- Witness for C10: the hypotheses are satisfiable at concrete inputs. -/
theorem domain_buffer_current_size_invariant_witness :
    Domain.ObservabilityBuffer.mk? 1 1 Option.none = Option.none ∧
    (⟨1, 0, []⟩ : Domain.ObservabilityBuffer).current_size
      = (((⟨1, 0, []⟩ : Domain.ObservabilityBuffer).buffer.length : Int)) ∧
    ((⟨2, 0, []⟩ : Domain.ObservabilityBuffer).add_span sampleSpan).2.current_size
      = ((((⟨2, 0, []⟩ : Domain.ObservabilityBuffer).add_span
            sampleSpan).2.buffer.length : Int)) ∧
    (((⟨2, 0, []⟩ : Domain.ObservabilityBuffer).add_span sampleSpan).1 = true ↔
       (((⟨2, 0, []⟩ : Domain.ObservabilityBuffer).add_span
           sampleSpan).2.current_size
           = (⟨2, 0, []⟩ : Domain.ObservabilityBuffer).current_size + 1 ∧
        ((⟨2, 0, []⟩ : Domain.ObservabilityBuffer).add_span
            sampleSpan).2.buffer.length
           = (⟨2, 0, []⟩ : Domain.ObservabilityBuffer).buffer.length + 1)) :=
  ⟨domain_buffer_current_size_invariant.1 1 1 Option.none (by decide),
   domain_buffer_current_size_invariant.2.1 1 0 Option.none ⟨1, 0, []⟩
     (by decide),
   domain_buffer_current_size_invariant.2.2.1 ⟨2, 0, []⟩ sampleSpan
     (by decide),
   domain_buffer_current_size_invariant.2.2.2.2 ⟨2, 0, []⟩ sampleSpan⟩


/-- Repeated `add_span` calls on the reject-policy buffer, collecting the
returned booleans in call order. -/
def BufferManagement.RejectWhenFullBuffer.addAll
    (b : BufferManagement.RejectWhenFullBuffer) :
    List TraceSpan → BufferManagement.RejectWhenFullBuffer × List Bool
  | [] => (b, [])
  | x :: xs =>
    match b.add_span x with
    | (ok, b') =>
      match b'.addAll xs with
      | (bf, outs) => (bf, ok :: outs)

/-- Repeated `add_span` calls on the evict-oldest buffer, collecting the
returned booleans in call order. -/
def BufferManagement.ObservabilityBuffer.addAll
    (b : BufferManagement.ObservabilityBuffer) :
    List TraceSpan → BufferManagement.ObservabilityBuffer × List Bool
  | [] => (b, [])
  | x :: xs =>
    match b.add_span x with
    | (ok, b') =>
      match b'.addAll xs with
      | (bf, outs) => (bf, ok :: outs)

theorem rejectAddAll_below_capacity (N : Nat) :
    ∀ (xs : List TraceSpan) (b : BufferManagement.RejectWhenFullBuffer),
      b.max_size = (N : Int) → b.buffer.length + xs.length ≤ N →
      b.addAll xs
        = (⟨(N : Int), b.buffer ++ xs⟩, List.replicate xs.length true) := by
  intro xs
  induction xs with
  | nil =>
    intro b hmax hlen
    cases b
    simp_all [BufferManagement.RejectWhenFullBuffer.addAll]
  | cons x xs ih =>
    intro b hmax hlen
    simp only [List.length_cons] at hlen
    have hlt : ¬ ((b.buffer.length : Int) ≥ b.max_size) := by
      rw [hmax]
      push_cast
      omega
    simp only [BufferManagement.RejectWhenFullBuffer.addAll,
      BufferManagement.RejectWhenFullBuffer.add_span, if_neg hlt]
    have hrec := ih ⟨b.max_size, b.buffer ++ [x]⟩ (by simpa using hmax)
      (by simp only [List.length_append, List.length_singleton]; omega)
    rw [hrec]
    simp [List.replicate_succ]

/-- C5: a reject-policy buffer of capacity `N` accepts (returns `True`
and appends) each of its first `N` spans, and any `add_span` performed
while the size equals `N` returns `False` leaving contents and size
unchanged.  Stated for the application `RejectWhenFullBuffer` and for the
domain `ObservabilityBuffer` dataclass, which implements the same
policy. -/
theorem reject_buffer_fill_then_reject (N : Nat) (hN : 0 < N)
    (b0 : BufferManagement.RejectWhenFullBuffer)
    (hmk : BufferManagement.RejectWhenFullBuffer.mk? (N : Int)
      = Option.some b0) :
    (∀ xs : List TraceSpan, xs.length ≤ N →
       b0.addAll xs = (⟨(N : Int), xs⟩, List.replicate xs.length true)) ∧
    (∀ (b : BufferManagement.RejectWhenFullBuffer) (x : TraceSpan),
       b.max_size = (N : Int) → b.buffer.length = N →
       b.add_span x = (false, b)) ∧
    (∀ (db : Domain.ObservabilityBuffer) (x : TraceSpan),
       db.max_size = (N : Int) → db.current_size = (N : Int) →
       db.add_span x = (false, db)) ∧
    (∀ (db : Domain.ObservabilityBuffer) (x : TraceSpan),
       db.max_size = (N : Int) → db.current_size < (N : Int) →
       db.add_span x
         = (true, ⟨db.max_size, db.current_size + 1, db.buffer ++ [x]⟩)) := by
  have hb0 : b0 = ⟨(N : Int), []⟩ := by
    simp only [BufferManagement.RejectWhenFullBuffer.mk?] at hmk
    split_ifs at hmk
    exact (Option.some.inj hmk).symm
  refine ⟨?_, ?_, ?_, ?_⟩
  · intro xs hlen
    have := rejectAddAll_below_capacity N xs b0 (by rw [hb0]) ?side
    · rw [hb0] at this ⊢
      simpa using this
    · rw [hb0]
      simpa using hlen
  · intro b x hmax hlen
    have : ((b.buffer.length : Int) ≥ b.max_size) := by
      rw [hmax, hlen]
    simp [BufferManagement.RejectWhenFullBuffer.add_span, this]
  · intro db x hmax hcur
    have : db.current_size ≥ db.max_size := by rw [hmax, hcur]
    simp [Domain.ObservabilityBuffer.add_span, this]
  · intro db x hmax hcur
    have : ¬ (db.current_size ≥ db.max_size) := by omega
    simp [Domain.ObservabilityBuffer.add_span, this]

/-- Witness for C5: at `N = 2` from the fresh buffer, two adds succeed
and the overflow add is rejected. -/
theorem reject_buffer_fill_then_reject_witness :
    BufferManagement.RejectWhenFullBuffer.mk? ((2 : Nat) : Int)
        = Option.some ⟨((2 : Nat) : Int), []⟩ ∧
    (⟨((2 : Nat) : Int), []⟩ :
        BufferManagement.RejectWhenFullBuffer).addAll [sampleSpan, sampleSpan2]
      = (⟨((2 : Nat) : Int), [sampleSpan, sampleSpan2]⟩,
         List.replicate ([sampleSpan, sampleSpan2].length) true) ∧
    BufferManagement.RejectWhenFullBuffer.add_span
        ⟨((2 : Nat) : Int), [sampleSpan, sampleSpan2]⟩ sampleSpan
      = (false, ⟨((2 : Nat) : Int), [sampleSpan, sampleSpan2]⟩) ∧
    Domain.ObservabilityBuffer.add_span ⟨((2 : Nat) : Int), 2, [sampleSpan, sampleSpan2]⟩
        sampleSpan
      = (false, ⟨((2 : Nat) : Int), 2, [sampleSpan, sampleSpan2]⟩) ∧
    Domain.ObservabilityBuffer.add_span ⟨((2 : Nat) : Int), 0, []⟩ sampleSpan
      = (true, ⟨((2 : Nat) : Int), 0 + 1, [] ++ [sampleSpan]⟩) :=
  ⟨by decide,
   (reject_buffer_fill_then_reject 2 (by decide) ⟨((2 : Nat) : Int), []⟩
      (by decide)).1 [sampleSpan, sampleSpan2] (by decide),
   (reject_buffer_fill_then_reject 2 (by decide) ⟨((2 : Nat) : Int), []⟩
      (by decide)).2.1 ⟨((2 : Nat) : Int), [sampleSpan, sampleSpan2]⟩
      sampleSpan (by decide) (by decide),
   (reject_buffer_fill_then_reject 2 (by decide) ⟨((2 : Nat) : Int), []⟩
      (by decide)).2.2.1 ⟨((2 : Nat) : Int), 2, [sampleSpan, sampleSpan2]⟩
      sampleSpan (by decide) (by decide),
   (reject_buffer_fill_then_reject 2 (by decide) ⟨((2 : Nat) : Int), []⟩
      (by decide)).2.2.2 ⟨((2 : Nat) : Int), 0, []⟩ sampleSpan (by decide)
      (by decide)⟩


theorem drop_one_append_drop {α : Type} (l r : List α) (n : Nat)
    (hl : l ≠ []) : (l.drop 1 ++ r).drop n = (l ++ r).drop (n + 1) := by
  cases l with
  | nil => exact absurd rfl hl
  | cons a l' => simp [List.drop_succ_cons]

theorem evictAddAll_keeps_last (N : Nat) (hN : 0 < N) :
    ∀ (xs : List TraceSpan) (b : BufferManagement.ObservabilityBuffer),
      b.max_size = (N : Int) → b.buffer.length ≤ N →
      b.addAll xs
        = (⟨(N : Int),
            (b.buffer ++ xs).drop (b.buffer.length + xs.length - N)⟩,
           List.replicate xs.length true) := by
  intro xs
  induction xs with
  | nil =>
    intro b hmax hlen
    cases b
    simp_all [BufferManagement.ObservabilityBuffer.addAll,
      Nat.sub_eq_zero_of_le]
  | cons x xs ih =>
    intro b hmax hlen
    by_cases hfull : ((b.buffer.length : Int) ≥ b.max_size)
    · have hlenN : b.buffer.length = N := by
        rw [hmax] at hfull
        push_cast at hfull
        omega
      have hne : b.buffer ≠ [] := by
        intro hcon
        rw [hcon] at hlenN
        simp at hlenN
        omega
      simp only [BufferManagement.ObservabilityBuffer.addAll,
        BufferManagement.ObservabilityBuffer.add_span, if_pos hfull]
      have hrec := ih ⟨b.max_size, b.buffer.drop 1 ++ [x]⟩
        (by simpa using hmax)
        (by simp [List.length_drop, hlenN]; omega)
      rw [hrec]
      simp only [List.length_append, List.length_drop, hlenN,
        List.length_singleton, List.length_cons, List.length_nil,
        Nat.zero_add]
      have harith : N - 1 + 1 + xs.length - N = xs.length := by omega
      have harith2 : N + (xs.length + 1) - N = xs.length + 1 := by omega
      rw [harith, harith2]
      rw [List.append_assoc, List.singleton_append,
        drop_one_append_drop _ _ _ hne]
      simp [List.replicate_succ]
    · simp only [BufferManagement.ObservabilityBuffer.addAll,
        BufferManagement.ObservabilityBuffer.add_span, if_neg hfull]
      have hlt : b.buffer.length < N := by
        rw [hmax] at hfull
        push_cast at hfull
        omega
      have hrec := ih ⟨b.max_size, b.buffer ++ [x]⟩ (by simpa using hmax)
        (by simp [List.length_append]; omega)
      rw [hrec]
      simp only [List.length_append, List.length_singleton,
        List.length_cons, List.length_nil, Nat.zero_add,
        List.append_assoc, List.singleton_append]
      have harith : b.buffer.length + 1 + xs.length
          = b.buffer.length + (xs.length + 1) := by omega
      rw [harith]
      simp [List.replicate_succ]

/-- C6: under the evict-oldest policy (`deque(maxlen=N)`), every add
returns `True`, and after inserting `N + k` elements (`k ≥ 1`) from a
fresh buffer, the size is `N`, the survivors are the last `N` insertions
kept in insertion order, and the oldest surviving element is the
`(k+1)`-th inserted one. -/
theorem evict_buffer_overflow_evicts_oldest (N k : Nat) (hN : 0 < N)
    (hk : 1 ≤ k) (b0 : BufferManagement.ObservabilityBuffer)
    (hmk : BufferManagement.ObservabilityBuffer.mk? (N : Int)
      = Option.some b0)
    (xs : List TraceSpan) (hlen : xs.length = N + k) :
    (b0.addAll xs).2 = List.replicate (N + k) true ∧
    (b0.addAll xs).1.buffer = xs.drop k ∧
    (b0.addAll xs).1.size = N ∧
    (b0.addAll xs).1.buffer.head? = xs.get? k := by
  have hb0 : b0 = ⟨(N : Int), []⟩ := by
    simp only [BufferManagement.ObservabilityBuffer.mk?] at hmk
    split_ifs at hmk
    exact (Option.some.inj hmk).symm
  have h := evictAddAll_keeps_last N hN xs b0 (by rw [hb0]) (by rw [hb0]; simp)
  rw [hb0] at h ⊢
  simp only [List.nil_append] at h
  have hdrop : ([] : List TraceSpan).length + xs.length - N = k := by
    simp [hlen]
  rw [hdrop] at h
  rw [h]
  refine ⟨by rw [hlen], rfl, ?_, ?_⟩
  · simp [BufferManagement.ObservabilityBuffer.size, List.length_drop, hlen]
  · simp [List.head?_drop, List.get?_eq_getElem?]

/-- Witness for C6: at `N = 1`, `k = 1`, two inserts evict the first
span and keep the second. -/
theorem evict_buffer_overflow_evicts_oldest_witness :
    BufferManagement.ObservabilityBuffer.mk? ((1 : Nat) : Int)
        = Option.some ⟨((1 : Nat) : Int), []⟩ ∧
    ([sampleSpan, sampleSpan2].length = 1 + 1) ∧
    ((⟨((1 : Nat) : Int), []⟩ :
        BufferManagement.ObservabilityBuffer).addAll
        [sampleSpan, sampleSpan2]).2 = List.replicate (1 + 1) true ∧
    ((⟨((1 : Nat) : Int), []⟩ :
        BufferManagement.ObservabilityBuffer).addAll
        [sampleSpan, sampleSpan2]).1.buffer
      = [sampleSpan, sampleSpan2].drop 1 ∧
    ((⟨((1 : Nat) : Int), []⟩ :
        BufferManagement.ObservabilityBuffer).addAll
        [sampleSpan, sampleSpan2]).1.size = 1 ∧
    ((⟨((1 : Nat) : Int), []⟩ :
        BufferManagement.ObservabilityBuffer).addAll
        [sampleSpan, sampleSpan2]).1.buffer.head?
      = [sampleSpan, sampleSpan2].get? 1 := by
  have h := evict_buffer_overflow_evicts_oldest 1 1 (by decide) (by decide)
    ⟨((1 : Nat) : Int), []⟩ (by decide) [sampleSpan, sampleSpan2]
    (by decide)
  exact ⟨by decide, by decide, h.1, h.2.1, h.2.2.1, h.2.2.2⟩


/-- One abstract buffer operation from the shared port interface. -/
inductive BufOp where
  | add (s : TraceSpan) : BufOp
  | get (count : Int) : BufOp
  | clear : BufOp

/-- State transition of the evict-oldest variant (`get_spans` returns a
copy and leaves the state untouched). -/
def BufferManagement.ObservabilityBuffer.step
    (b : BufferManagement.ObservabilityBuffer) :
    BufOp → BufferManagement.ObservabilityBuffer
  | .add s => (b.add_span s).2
  | .get _ => b
  | .clear => b.clear

def BufferManagement.ObservabilityBuffer.runOps
    (b : BufferManagement.ObservabilityBuffer) (ops : List BufOp) :
    BufferManagement.ObservabilityBuffer :=
  ops.foldl BufferManagement.ObservabilityBuffer.step b

/-- State transition of the consume-on-read variant (`get_spans` pops
`min(count, len)` elements from the front). -/
def BufferManagement.ObservabilityBufferWithConsume.step
    (b : BufferManagement.ObservabilityBufferWithConsume) :
    BufOp → BufferManagement.ObservabilityBufferWithConsume
  | .add s => (b.add_span s).2
  | .get c => (b.get_spans c).2
  | .clear => b.clear

def BufferManagement.ObservabilityBufferWithConsume.runOps
    (b : BufferManagement.ObservabilityBufferWithConsume)
    (ops : List BufOp) : BufferManagement.ObservabilityBufferWithConsume :=
  ops.foldl BufferManagement.ObservabilityBufferWithConsume.step b

/-- State transition of the read-only variant. -/
def BufferManagement.TraceBufferPortReadOnly.step
    (b : BufferManagement.TraceBufferPortReadOnly) :
    BufOp → BufferManagement.TraceBufferPortReadOnly
  | .add s => (b.add_span s).2
  | .get _ => b
  | .clear => b.clear

def BufferManagement.TraceBufferPortReadOnly.runOps
    (b : BufferManagement.TraceBufferPortReadOnly) (ops : List BufOp) :
    BufferManagement.TraceBufferPortReadOnly :=
  ops.foldl BufferManagement.TraceBufferPortReadOnly.step b

/-- State transition of the reject variant. -/
def BufferManagement.RejectWhenFullBuffer.step
    (b : BufferManagement.RejectWhenFullBuffer) :
    BufOp → BufferManagement.RejectWhenFullBuffer
  | .add s => (b.add_span s).2
  | .get _ => b
  | .clear => b.clear

def BufferManagement.RejectWhenFullBuffer.runOps
    (b : BufferManagement.RejectWhenFullBuffer) (ops : List BufOp) :
    BufferManagement.RejectWhenFullBuffer :=
  ops.foldl BufferManagement.RejectWhenFullBuffer.step b

/-- State transition of the domain dataclass buffer; it has no read
operation, so `get` leaves it untouched. -/
def Domain.ObservabilityBuffer.step (b : Domain.ObservabilityBuffer) :
    BufOp → Domain.ObservabilityBuffer
  | .add s => (b.add_span s).2
  | .get _ => b
  | .clear => b.clear

def Domain.ObservabilityBuffer.runOps (b : Domain.ObservabilityBuffer)
    (ops : List BufOp) : Domain.ObservabilityBuffer :=
  ops.foldl Domain.ObservabilityBuffer.step b

theorem foldl_invariant {σ τ : Type} (P : σ → Prop) (f : σ → τ → σ)
    (hstep : ∀ s t, P s → P (f s t)) :
    ∀ (l : List τ) (s : σ), P s → P (l.foldl f s) := by
  intro l
  induction l with
  | nil => intro s hs; exact hs
  | cons t l ih => intro s hs; exact ih (f s t) (hstep s t hs)

theorem evict_step_invariant (N : Nat) (hN : 0 < N)
    (b : BufferManagement.ObservabilityBuffer) (op : BufOp)
    (h : b.buffer.length ≤ N ∧ b.max_size = (N : Int)) :
    (b.step op).buffer.length ≤ N ∧ (b.step op).max_size = (N : Int) := by
  obtain ⟨hlen, hmax⟩ := h
  cases op with
  | add s =>
    simp only [BufferManagement.ObservabilityBuffer.step,
      BufferManagement.ObservabilityBuffer.add_span]
    split_ifs with hfull
    · rw [hmax] at hfull
      push_cast at hfull
      simp [List.length_append, List.length_drop]
      omega
    · rw [hmax] at hfull
      push_cast at hfull
      simp [List.length_append]
      omega
  | get c => exact ⟨hlen, hmax⟩
  | clear =>
    simp [BufferManagement.ObservabilityBuffer.step,
      BufferManagement.ObservabilityBuffer.clear, hmax]

theorem consume_step_invariant (N : Nat) (hN : 0 < N)
    (b : BufferManagement.ObservabilityBufferWithConsume) (op : BufOp)
    (h : b.buffer.length ≤ N ∧ b.max_size = (N : Int)) :
    (b.step op).buffer.length ≤ N ∧ (b.step op).max_size = (N : Int) := by
  obtain ⟨hlen, hmax⟩ := h
  cases op with
  | add s =>
    simp only [BufferManagement.ObservabilityBufferWithConsume.step,
      BufferManagement.ObservabilityBufferWithConsume.add_span]
    split_ifs with hfull
    · rw [hmax] at hfull
      push_cast at hfull
      simp [List.length_append, List.length_drop]
      omega
    · rw [hmax] at hfull
      push_cast at hfull
      simp [List.length_append]
      omega
  | get c =>
    simp only [BufferManagement.ObservabilityBufferWithConsume.step,
      BufferManagement.ObservabilityBufferWithConsume.get_spans]
    simp [List.length_drop]
    exact ⟨by omega, hmax⟩
  | clear =>
    simp [BufferManagement.ObservabilityBufferWithConsume.step,
      BufferManagement.ObservabilityBufferWithConsume.clear, hmax]

theorem readonly_step_invariant (N : Nat) (hN : 0 < N)
    (b : BufferManagement.TraceBufferPortReadOnly) (op : BufOp)
    (h : b.buffer.length ≤ N ∧ b.max_size = (N : Int)) :
    (b.step op).buffer.length ≤ N ∧ (b.step op).max_size = (N : Int) := by
  obtain ⟨hlen, hmax⟩ := h
  cases op with
  | add s =>
    simp only [BufferManagement.TraceBufferPortReadOnly.step,
      BufferManagement.TraceBufferPortReadOnly.add_span]
    split_ifs with hfull
    · rw [hmax] at hfull
      push_cast at hfull
      simp [List.length_append, List.length_drop]
      omega
    · rw [hmax] at hfull
      push_cast at hfull
      simp [List.length_append]
      omega
  | get c => exact ⟨hlen, hmax⟩
  | clear =>
    simp [BufferManagement.TraceBufferPortReadOnly.step,
      BufferManagement.TraceBufferPortReadOnly.clear, hmax]

theorem reject_step_invariant (N : Nat) (hN : 0 < N)
    (b : BufferManagement.RejectWhenFullBuffer) (op : BufOp)
    (h : b.buffer.length ≤ N ∧ b.max_size = (N : Int)) :
    (b.step op).buffer.length ≤ N ∧ (b.step op).max_size = (N : Int) := by
  obtain ⟨hlen, hmax⟩ := h
  cases op with
  | add s =>
    simp only [BufferManagement.RejectWhenFullBuffer.step,
      BufferManagement.RejectWhenFullBuffer.add_span]
    split_ifs with hfull
    · exact ⟨hlen, hmax⟩
    · rw [hmax] at hfull
      push_cast at hfull
      simp [List.length_append]
      omega
  | get c => exact ⟨hlen, hmax⟩
  | clear =>
    simp [BufferManagement.RejectWhenFullBuffer.step,
      BufferManagement.RejectWhenFullBuffer.clear, hmax]

theorem domain_step_invariant (N : Nat) (hN : 0 < N)
    (b : Domain.ObservabilityBuffer) (op : BufOp)
    (h : b.current_size ≤ (N : Int) ∧ b.max_size = (N : Int)) :
    (b.step op).current_size ≤ (N : Int) ∧
    (b.step op).max_size = (N : Int) := by
  obtain ⟨hlen, hmax⟩ := h
  cases op with
  | add s =>
    simp only [Domain.ObservabilityBuffer.step,
      Domain.ObservabilityBuffer.add_span]
    split_ifs with hfull
    · exact ⟨hlen, hmax⟩
    · rw [hmax] at hfull
      constructor
      · simp
        omega
      · exact hmax
  | get c => exact ⟨hlen, hmax⟩
  | clear =>
    simp [Domain.ObservabilityBuffer.step,
      Domain.ObservabilityBuffer.clear, hmax]
    try omega

/-- C8: every buffer variant constructed with capacity `N` keeps
`size ≤ N` after any sequence of add/get/clear operations, and its
`max_size` stays `N` forever (the field is set at construction and never
written again). -/
theorem buffer_capacity_never_exceeded (N : Nat) (hN : 0 < N)
    (ops : List BufOp) :
    (∀ b0, BufferManagement.ObservabilityBuffer.mk? (N : Int)
        = Option.some b0 →
      (b0.runOps ops).size ≤ N ∧
      (b0.runOps ops).max_size = (N : Int)) ∧
    (∀ b0, BufferManagement.ObservabilityBufferWithConsume.mk? (N : Int)
        = Option.some b0 →
      (b0.runOps ops).size ≤ N ∧
      (b0.runOps ops).max_size = (N : Int)) ∧
    (∀ b0, BufferManagement.TraceBufferPortReadOnly.mk? (N : Int)
        = Option.some b0 →
      (b0.runOps ops).size ≤ N ∧
      (b0.runOps ops).max_size = (N : Int)) ∧
    (∀ b0, BufferManagement.RejectWhenFullBuffer.mk? (N : Int)
        = Option.some b0 →
      (b0.runOps ops).size ≤ N ∧
      (b0.runOps ops).max_size = (N : Int)) ∧
    (∀ b0, Domain.ObservabilityBuffer.mk? (N : Int) 0 Option.none
        = Option.some b0 →
      (b0.runOps ops).current_size ≤ (N : Int) ∧
      (b0.runOps ops).max_size = (N : Int)) := by
  refine ⟨?_, ?_, ?_, ?_, ?_⟩
  · intro b0 hmk
    have hb0 : b0 = ⟨(N : Int), []⟩ := by
      simp only [BufferManagement.ObservabilityBuffer.mk?] at hmk
      split_ifs at hmk
      exact (Option.some.inj hmk).symm
    have := foldl_invariant
      (fun b : BufferManagement.ObservabilityBuffer =>
        b.buffer.length ≤ N ∧ b.max_size = (N : Int))
      BufferManagement.ObservabilityBuffer.step
      (fun s t hs => evict_step_invariant N hN s t hs) ops b0
      (by rw [hb0]; exact ⟨by simp, rfl⟩)
    exact ⟨this.1, this.2⟩
  · intro b0 hmk
    have hb0 : b0 = ⟨(N : Int), []⟩ := by
      simp only [BufferManagement.ObservabilityBufferWithConsume.mk?]
        at hmk
      split_ifs at hmk
      exact (Option.some.inj hmk).symm
    have := foldl_invariant
      (fun b : BufferManagement.ObservabilityBufferWithConsume =>
        b.buffer.length ≤ N ∧ b.max_size = (N : Int))
      BufferManagement.ObservabilityBufferWithConsume.step
      (fun s t hs => consume_step_invariant N hN s t hs) ops b0
      (by rw [hb0]; exact ⟨by simp, rfl⟩)
    exact ⟨this.1, this.2⟩
  · intro b0 hmk
    have hb0 : b0 = ⟨(N : Int), []⟩ := by
      simp only [BufferManagement.TraceBufferPortReadOnly.mk?] at hmk
      split_ifs at hmk
      exact (Option.some.inj hmk).symm
    have := foldl_invariant
      (fun b : BufferManagement.TraceBufferPortReadOnly =>
        b.buffer.length ≤ N ∧ b.max_size = (N : Int))
      BufferManagement.TraceBufferPortReadOnly.step
      (fun s t hs => readonly_step_invariant N hN s t hs) ops b0
      (by rw [hb0]; exact ⟨by simp, rfl⟩)
    exact ⟨this.1, this.2⟩
  · intro b0 hmk
    have hb0 : b0 = ⟨(N : Int), []⟩ := by
      simp only [BufferManagement.RejectWhenFullBuffer.mk?] at hmk
      split_ifs at hmk
      exact (Option.some.inj hmk).symm
    have := foldl_invariant
      (fun b : BufferManagement.RejectWhenFullBuffer =>
        b.buffer.length ≤ N ∧ b.max_size = (N : Int))
      BufferManagement.RejectWhenFullBuffer.step
      (fun s t hs => reject_step_invariant N hN s t hs) ops b0
      (by rw [hb0]; exact ⟨by simp, rfl⟩)
    exact ⟨this.1, this.2⟩
  · intro b0 hmk
    have hb0 : b0 = ⟨(N : Int), 0, []⟩ := by
      simp only [Domain.ObservabilityBuffer.mk?] at hmk
      split_ifs at hmk
      exact (Option.some.inj hmk).symm
    have := foldl_invariant
      (fun b : Domain.ObservabilityBuffer =>
        b.current_size ≤ (N : Int) ∧ b.max_size = (N : Int))
      Domain.ObservabilityBuffer.step
      (fun s t hs => domain_step_invariant N hN s t hs) ops b0
      (by rw [hb0]; exact ⟨by positivity, rfl⟩)
    exact ⟨this.1, this.2⟩

/-- Witness for C8 at `N = 1` with a sequence exercising add, get and
clear on every variant. -/
theorem buffer_capacity_never_exceeded_witness :
    ((⟨((1 : Nat) : Int), []⟩ :
        BufferManagement.ObservabilityBuffer).runOps
        [.add sampleSpan, .add sampleSpan2, .get 5, .clear,
         .add sampleSpan]).size ≤ 1 ∧
    ((⟨((1 : Nat) : Int), []⟩ :
        BufferManagement.ObservabilityBufferWithConsume).runOps
        [.add sampleSpan, .add sampleSpan2, .get 5, .clear,
         .add sampleSpan]).size ≤ 1 ∧
    ((⟨((1 : Nat) : Int), []⟩ :
        BufferManagement.TraceBufferPortReadOnly).runOps
        [.add sampleSpan, .add sampleSpan2, .get 5, .clear,
         .add sampleSpan]).size ≤ 1 ∧
    ((⟨((1 : Nat) : Int), []⟩ :
        BufferManagement.RejectWhenFullBuffer).runOps
        [.add sampleSpan, .add sampleSpan2, .get 5, .clear,
         .add sampleSpan]).size ≤ 1 ∧
    ((⟨((1 : Nat) : Int), 0, []⟩ :
        Domain.ObservabilityBuffer).runOps
        [.add sampleSpan, .add sampleSpan2, .get 5, .clear,
         .add sampleSpan]).current_size ≤ ((1 : Nat) : Int) := by
  have h := buffer_capacity_never_exceeded 1 (by decide)
    [.add sampleSpan, .add sampleSpan2, .get 5, .clear, .add sampleSpan]
  exact ⟨(h.1 ⟨((1 : Nat) : Int), []⟩ (by decide)).1,
    (h.2.1 ⟨((1 : Nat) : Int), []⟩ (by decide)).1,
    (h.2.2.1 ⟨((1 : Nat) : Int), []⟩ (by decide)).1,
    (h.2.2.2.1 ⟨((1 : Nat) : Int), []⟩ (by decide)).1,
    (h.2.2.2.2 ⟨((1 : Nat) : Int), 0, []⟩ (by decide)).1⟩


/-- C1: for every OTLP export request — including any whose processing
raises during span conversion, buffer insertion, or the storage-port
call (arbitrary `storage_ok` failure pattern) — the adapter's `Export`
returns the structurally valid empty success envelope and never installs
a transport-level error status.  The `except Exception` handler at the
top of `Export` swallows every internal exception and builds the same
`ExportTraceServiceResponse()` as the success path; `context.set_code`
is never called. -/
theorem export_always_empty_success
    (request : ExportTraceServiceRequest)
    (buffer : Domain.ObservabilityBuffer) (storage_ok : Nat → Bool) :
    (OTLPgRPCAdapter.Export request buffer storage_ok).response
        = emptySuccessResponse ∧
    (OTLPgRPCAdapter.Export request buffer storage_ok).status_code
        = Option.none := by
  refine ⟨?_, ?_⟩ <;>
    (simp only [OTLPgRPCAdapter.Export]
     split <;> rfl)

theorem exportStep_exc_some (request : ExportTraceServiceRequest)
    (storage_ok : Nat → Bool) (st : OTLPgRPCAdapter.WalkState)
    (sp : OtlpSpan) (e : String) (h : st.exc = Option.some e) :
    OTLPgRPCAdapter.exportStep request storage_ok st sp = st := by
  unfold OTLPgRPCAdapter.exportStep
  rw [h]

theorem exportWalk_exc_persists (request : ExportTraceServiceRequest)
    (storage_ok : Nat → Bool) :
    ∀ (l : List OtlpSpan) (st : OTLPgRPCAdapter.WalkState) (e : String),
      st.exc = Option.some e →
      l.foldl (OTLPgRPCAdapter.exportStep request storage_ok) st = st := by
  intro l
  induction l with
  | nil => intro st e h; rfl
  | cons sp l ih =>
    intro st e h
    simp only [List.foldl_cons,
      exportStep_exc_some request storage_ok st sp e h]
    exact ih st e h

theorem exportWalk_calls_count (request : ExportTraceServiceRequest)
    (storage_ok : Nat → Bool) :
    ∀ (l : List OtlpSpan) (st : OTLPgRPCAdapter.WalkState),
      st.exc = Option.none →
      (l.foldl (OTLPgRPCAdapter.exportStep request storage_ok) st).exc
        = Option.none →
      (l.foldl (OTLPgRPCAdapter.exportStep request storage_ok) st).calls
        = st.calls ++ List.replicate l.length request := by
  intro l
  induction l with
  | nil => intro st h hfin; simp
  | cons sp l ih =>
    intro st h hfin
    rw [List.foldl_cons] at hfin ⊢
    cases hconv : OTLPgRPCAdapter.createTraceSpanFromOtlp sp with
    | error e =>
      have hstep : OTLPgRPCAdapter.exportStep request storage_ok st sp
          = { st with exc := Option.some e } := by
        unfold OTLPgRPCAdapter.exportStep
        rw [h, hconv]
      rw [hstep] at hfin
      rw [exportWalk_exc_persists request storage_ok l _ e rfl] at hfin
      cases hfin
    | ok ts =>
      by_cases hstore : storage_ok st.calls.length = true
      · have hstep1 : (OTLPgRPCAdapter.exportStep request storage_ok st
            sp).exc = Option.none := by
          unfold OTLPgRPCAdapter.exportStep
          rw [h, hconv]
          simp [hstore]
        have hstep2 : (OTLPgRPCAdapter.exportStep request storage_ok st
            sp).calls = st.calls ++ [request] := by
          unfold OTLPgRPCAdapter.exportStep
          rw [h, hconv]
          simp [hstore]
        rw [ih _ hstep1 hfin, hstep2]
        simp [List.replicate_succ, List.append_assoc]
      · have hstep : (OTLPgRPCAdapter.exportStep request storage_ok st
            sp).exc = Option.some "storage port error" := by
          unfold OTLPgRPCAdapter.exportStep
          rw [h, hconv]
          simp only [Bool.not_eq_true] at hstore
          simp [hstore]
        rw [exportWalk_exc_persists request storage_ok l _ _ hstep]
          at hfin
        rw [hstep] at hfin
        cases hfin

theorem requestSpans_length_eq (request : ExportTraceServiceRequest) :
    (OTLPgRPCAdapter.requestSpans request).length
      = OTLPgRPCAdapter.totalWireSpans request := by
  unfold OTLPgRPCAdapter.requestSpans OTLPgRPCAdapter.totalWireSpans
  induction request.resource_spans with
  | nil => rfl
  | cons rs rest ih =>
    simp only [List.map_cons, List.flatten_cons, List.map_append,
      List.flatten_append, List.length_append, List.sum_cons, ih]
    congr 1
    induction rs.scope_spans with
    | nil => rfl
    | cons ss rest2 ih2 =>
      simp only [List.map_cons, List.flatten_cons, List.length_append,
        List.sum_cons, ih2]

/-- C2: when the per-request walk completes without raising, the storage
port is invoked exactly once per wire span of the request — the total
summed over every resource-span and scope-span group — and every call
carries the serialization of the entire original request. -/
theorem export_storage_calls_once_per_span
    (request : ExportTraceServiceRequest)
    (buffer : Domain.ObservabilityBuffer) (storage_ok : Nat → Bool)
    (h : (OTLPgRPCAdapter.Export request buffer
      storage_ok).raised_internally = false) :
    (OTLPgRPCAdapter.Export request buffer storage_ok).storage_calls
      = List.replicate (OTLPgRPCAdapter.totalWireSpans request)
          request := by
  simp only [OTLPgRPCAdapter.Export] at h ⊢
  cases hexc : ((OTLPgRPCAdapter.requestSpans request).foldl
      (OTLPgRPCAdapter.exportStep request storage_ok)
      ⟨buffer, [], 0, Option.none⟩).exc with
  | some e =>
    rw [hexc] at h
    simp at h
  | none =>
    have hcalls := exportWalk_calls_count request storage_ok
      (OTLPgRPCAdapter.requestSpans request)
      ⟨buffer, [], 0, Option.none⟩ rfl hexc
    simp only [List.nil_append] at hcalls
    simp [hexc, hcalls, requestSpans_length_eq]


/-- The spec's end-to-end wire span: 16 zero bytes of trace id, 8 zero
bytes of span id, no parent, name "test-span", kind `INTERNAL`, valid
start/end times. -/
def zeroWireSpan : OtlpSpan :=
  ⟨List.replicate 16 0, List.replicate 8 0, [], "test-span", 0, 0, 1,
    [], [], ⟨0, ""⟩⟩

/-- The domain span `zeroWireSpan` converts to. -/
def zeroTraceSpan : TraceSpan :=
  ⟨⟨"00000000000000000000000000000000"⟩, ⟨"0000000000000000"⟩,
    Option.none, "test-span", 0, 1, PyDict.nil, [], ⟨0, Option.none⟩, 0⟩

/-- Witness for C2: one convertible span, a roomy buffer and a healthy
storage port give a completed walk with exactly one storage call carrying
the whole request. -/
theorem export_storage_calls_once_per_span_witness :
    (OTLPgRPCAdapter.Export ⟨[⟨[⟨[zeroWireSpan]⟩]⟩]⟩ ⟨10, 0, []⟩
        (fun _ => true)).raised_internally = false ∧
    (OTLPgRPCAdapter.Export ⟨[⟨[⟨[zeroWireSpan]⟩]⟩]⟩ ⟨10, 0, []⟩
        (fun _ => true)).storage_calls
      = List.replicate
          (OTLPgRPCAdapter.totalWireSpans ⟨[⟨[⟨[zeroWireSpan]⟩]⟩]⟩)
          ⟨[⟨[⟨[zeroWireSpan]⟩]⟩]⟩ :=
  ⟨rfl,
   export_storage_calls_once_per_span ⟨[⟨[⟨[zeroWireSpan]⟩]⟩]⟩
     ⟨10, 0, []⟩ (fun _ => true) rfl⟩

/-- C7: an `Export` of one convertible span against the reject-policy
domain buffer of `max_size = 1` already holding one span does not raise:
the first `add_span` is rejected, `_process_buffer_contents` drains
(clears) the buffer exactly once, the retried `add_span` succeeds, and
the call ends with the empty success envelope, one storage call, and
`size() == 1` holding exactly the new span. -/
theorem export_drain_retry_scenario (s0 ts : TraceSpan) (w : OtlpSpan)
    (storage_ok : Nat → Bool)
    (hconv : OTLPgRPCAdapter.createTraceSpanFromOtlp w = .ok ts)
    (hstore : storage_ok 0 = true) :
    OTLPgRPCAdapter.Export ⟨[⟨[⟨[w]⟩]⟩]⟩ ⟨1, 1, [s0]⟩ storage_ok
      = ⟨emptySuccessResponse, Option.none, ⟨1, 1, [ts]⟩,
         [⟨[⟨[⟨[w]⟩]⟩]⟩], 1, false⟩ := by
  have hfull : ¬ ¬ ((1 : Int) ≥ (1 : Int)) := by omega
  simp only [OTLPgRPCAdapter.Export, OTLPgRPCAdapter.requestSpans,
    List.map_cons, List.map_nil, List.flatten_cons, List.flatten_nil,
    List.append_nil, List.foldl_cons, List.foldl_nil]
  unfold OTLPgRPCAdapter.exportStep
  simp only [hconv]
  simp [Domain.ObservabilityBuffer.add_span,
    Domain.ObservabilityBuffer.clear, hstore]

/-- Witness for C7: the concrete end-to-end scenario of the spec. -/
theorem export_drain_retry_scenario_witness :
    OTLPgRPCAdapter.createTraceSpanFromOtlp zeroWireSpan
        = .ok zeroTraceSpan ∧
    ((fun _ : Nat => true) 0 = true) ∧
    OTLPgRPCAdapter.Export ⟨[⟨[⟨[zeroWireSpan]⟩]⟩]⟩ ⟨1, 1, [sampleSpan]⟩
        (fun _ => true)
      = ⟨emptySuccessResponse, Option.none, ⟨1, 1, [zeroTraceSpan]⟩,
         [⟨[⟨[⟨[zeroWireSpan]⟩]⟩]⟩], 1, false⟩ :=
  ⟨rfl, rfl,
   export_drain_retry_scenario sampleSpan zeroTraceSpan zeroWireSpan
     (fun _ => true) rfl rfl⟩

end Obsvty
